import Mathlib

/-!
Verification of the slot-engine logic of the appointment-booking scripts
(`slot.py`, `date.py`, `appointment.py`).

Conventions of the shallow embedding:
* times of day are minutes since midnight (`Nat`), e.g. 09:00 = 540;
* calendar dates are day counts (`Nat`) with day 0 a Monday, so
  `weekday d = d % 7` matches Python's `date.weekday()` (Monday = 0);
* durations are minutes (`Nat`);
* the external Google-calendar availability query of `is_slot_available`
  is modelled by an explicit list of busy intervals for the probed date,
  half-open `[start, end)` in minutes, matching the `events.list`
  `timeMin`/`timeMax` overlap semantics (an event is returned iff its end
  is strictly after `timeMin` and its start strictly before `timeMax`);
* `date.today()` is modelled by an explicit `today : Nat` parameter;
* Python exceptions raised for invalid durations become `Except.error`.
-/

/-- `Slot.DURATIONS.values()`: the permitted slot durations in minutes. -/
def DURATIONS : List Nat := [15, 30, 45, 60]

/-- `Slot.DEFAULT_DURATION = DURATIONS['MEDIUM']`. -/
def DEFAULT_DURATION : Nat := 30

/-- The time configuration a `Slot` instance carries after `__init__`:
working-hour bounds, lunch window and the instance's default duration,
all in minutes since midnight. -/
structure SlotConfig where
  slot_start_time : Nat
  slot_end_time : Nat
  lunch_start_time : Nat
  lunch_end_time : Nat
  duration : Nat
deriving DecidableEq, Repr

/-- The class defaults: 09:00-17:00, lunch 12:00-13:00, duration 30. -/
def defaultCfg : SlotConfig :=
  { slot_start_time := 540, slot_end_time := 1020,
    lunch_start_time := 720, lunch_end_time := 780, duration := 30 }

/-- `Slot.__init__` line 83: `self.duration = duration if duration in
self.DURATIONS.values() else self.DEFAULT_DURATION`. -/
def init_duration (duration : Nat) : Nat :=
  if duration ∈ DURATIONS then duration else DEFAULT_DURATION

/-- `Slot.is_valid_time(start_time, duration, check_date)` with the
instance state `cfg` and the current date `today`.  The Python function
returns a single `(bool, reason)` pair, checking in order: past date,
duration allow-list, start within working hours, end within working
hours, lunch overlap, 15-minute grid alignment, and returning at the
first failure. -/
def is_valid_time (cfg : SlotConfig) (today start_time duration check_date : Nat) :
    Bool × String :=
  if check_date < today then
    (false, "Cannot book slots in the past")
  else if duration ∉ DURATIONS then
    (false, "Invalid duration. Must be one of [15, 30, 45, 60] minutes")
  else if start_time < cfg.slot_start_time ∨ cfg.slot_end_time ≤ start_time then
    (false, "Start time is outside working hours")
  else if cfg.slot_end_time < start_time + duration then
    (false, "Slot would exceed working hours")
  else if ¬ (start_time + duration ≤ cfg.lunch_start_time ∨
             cfg.lunch_end_time ≤ start_time) then
    (false, "Slot overlaps with lunch break")
  else if (start_time - cfg.slot_start_time) % 15 ≠ 0 then
    (false, "Invalid start time. Slots must start at 15-minute intervals")
  else
    (true, "Valid slot time")

/-- Half-open interval overlap of the candidate slot with one busy
interval, as realised by the calendar query in `Slot.is_slot_available`. -/
def overlaps_busy (slot_start slot_end : Nat) (b : Nat × Nat) : Bool :=
  decide (slot_start < b.2 ∧ b.1 < slot_end)

/-- `Slot.is_slot_available(start_time, duration, check_date)`: true iff
the calendar lists no event intersecting `[start_time, start_time +
duration)` on the probed date, whose busy intervals are `busy`. -/
def is_slot_available (busy : List (Nat × Nat)) (start_time duration : Nat) : Bool :=
  busy.all (fun b => ! overlaps_busy start_time (start_time + duration) b)

/-- A slot dictionary as built by `Slot.get_available_slots`. -/
structure SlotInfo where
  date : Nat
  start_time : Nat
  end_time : Nat
  duration : Nat
deriving DecidableEq, Repr

/-- `Slot.get_end_time(start_time)`: start plus the instance's default
duration (`self.duration`), per its docstring. -/
def get_end_time (cfg : SlotConfig) (start_time : Nat) : Nat :=
  start_time + cfg.duration

/-- The candidate start times walked by the `while current_time <
self.slot_end_time` loop of `Slot.get_available_slots` in steps of
15 minutes from `slot_start_time`. -/
def candidate_times (cfg : SlotConfig) : List Nat :=
  (List.range ((cfg.slot_end_time - cfg.slot_start_time + 14) / 15)).map
    (fun i => cfg.slot_start_time + 15 * i)

/-- The body of `Slot.get_available_slots(duration, requested_date)`
from the allow-list check on, applied to the already-resolved duration:
raises on a duration outside the allow-list, otherwise keeps each
candidate start passing `is_valid_time` and `is_slot_available` and
records it with `end_time = get_end_time(t)` and the instance's
`self.duration` field.  The parameter defaulting at the top of the
function body is modelled separately by `or_default_duration` and
`Slot.get_available_slots_call`. -/
def Slot.get_available_slots (cfg : SlotConfig) (today : Nat)
    (busy : List (Nat × Nat)) (duration check_date : Nat) :
    Except String (List SlotInfo) :=
  if duration ∉ DURATIONS then
    Except.error "Invalid duration. Must be one of [15, 30, 45, 60] minutes"
  else
    Except.ok (((candidate_times cfg).filter (fun t =>
        (is_valid_time cfg today t duration check_date).1 &&
          is_slot_available busy t duration)).map
      (fun t => ⟨check_date, t, get_end_time cfg t, cfg.duration⟩))

/-- The parameter defaulting `duration = duration or self.duration`
(slot.py line 242; the same idiom appears in `is_slot_available` and
`is_valid_time`): both an omitted argument (`None`) and the falsy
value 0 are silently replaced by the instance default before any
validation runs. -/
def or_default_duration (cfg : SlotConfig) (duration : Option Nat) : Nat :=
  match duration with
  | none => cfg.duration
  | some d => if d = 0 then cfg.duration else d

/-- The full `Slot.get_available_slots(duration, requested_date)` call
boundary: the optional `duration` argument is first resolved by the
`or` defaulting and only the resolved value is checked against the
allow-list and used for enumeration. -/
def Slot.get_available_slots_call (cfg : SlotConfig) (today : Nat)
    (busy : List (Nat × Nat)) (duration : Option Nat) (check_date : Nat) :
    Except String (List SlotInfo) :=
  Slot.get_available_slots cfg today busy (or_default_duration cfg duration) check_date

/-- `Date.WEEKEND_DAYS = {5, 6}` (Saturday, Sunday). -/
def WEEKEND_DAYS : Finset Nat := {5, 6}

/-- Python's `date.weekday()` under the day-count convention (day 0 a
Monday). -/
def weekday (d : Nat) : Nat := d % 7

/-- `Date.is_working_day`: not a holiday and not a weekend day. -/
def is_working_day (holidays : Finset Nat) (d : Nat) : Bool :=
  ! (decide (d ∈ holidays) || decide (weekday d ∈ WEEKEND_DAYS))

/-- `Date.get_available_slots(duration, requested_date)`: returns `[]`
when the probed date is not a working day, otherwise defers to
`Slot.get_available_slots`. -/
def Date.get_available_slots (cfg : SlotConfig) (holidays : Finset Nat)
    (today : Nat) (busy : List (Nat × Nat)) (duration check_date : Nat) :
    Except String (List SlotInfo) :=
  if is_working_day holidays check_date then
    Slot.get_available_slots cfg today busy duration check_date
  else
    Except.ok []

/-- The unbounded `while True` loop of `Date.get_next_working_day`,
made explicit with a fuel argument: starting at day `d` it returns the
first working day found within `fuel` steps, `none` if the fuel runs
out first.  The loop itself starts at `date_value + 1`. -/
def Date.next_working_day_aux (holidays : Finset Nat) : Nat → Nat → Option Nat
  | 0, _ => none
  | fuel + 1, d =>
    if is_working_day holidays d then some d
    else Date.next_working_day_aux holidays fuel (d + 1)

/-- The instance attributes assigned by `Slot.__init__` (slot.py lines
78-93 and 116) together with `holidays` from `Date.__init__`
(date.py line 41); `Appointment.__init__` adds none.  The
`credentials_path` argument is only passed on to
`_initialize_google_calendar`, never stored on the instance. -/
def slot_instance_attrs : List String :=
  ["timezone", "timezone_code", "calendar_id", "duration",
   "slot_start_time", "slot_end_time", "lunch_start_time",
   "lunch_end_time", "time_between_slots", "date_value", "service",
   "holidays"]

/-- `Appointment.get_next_date_same_slot(start_time, max_days)`.  Each
loop iteration advances one calendar day and consumes one unit of
`max_days`, whether or not the day is a working day.  The body first
evaluates `self.credentials_path` (appointment.py line 99) to build
the temporary probe instance — an attribute lookup that raises
AttributeError unless the attribute was assigned in `__init__`, which
for `credentials_path` it never is.  The probe instance carries the
class defaults, so the checked window and the reported `end_time` use
`DEFAULT_DURATION`; the reported `duration` field is the original
instance's `self.duration`.  `busyOn d` is the busy-interval list the
calendar returns for day `d`. -/
def Appointment.get_next_date_same_slot (cfg : SlotConfig) (holidays : Finset Nat)
    (busyOn : Nat → List (Nat × Nat)) (start_time : Nat) :
    Nat → Nat → Except String (Option SlotInfo)
  | _, 0 => Except.ok none
  | current_date, max_days + 1 =>
    if "credentials_path" ∈ slot_instance_attrs then
      let next_date := current_date + 1
      if ! is_working_day holidays next_date then
        Appointment.get_next_date_same_slot cfg holidays busyOn start_time next_date max_days
      else if is_slot_available (busyOn next_date) start_time DEFAULT_DURATION then
        Except.ok (some ⟨next_date, start_time, start_time + DEFAULT_DURATION, cfg.duration⟩)
      else
        Appointment.get_next_date_same_slot cfg holidays busyOn start_time next_date max_days
    else
      Except.error "AttributeError: credentials_path"

/-- The past-check comparator as the specification words it: the
datetime formed from the proposed date and start time is less than or
equal to the current instant `(nowDate, nowMin)`.  Stated from the
spec's words, for comparison with the date-only check in the code. -/
def spec_past_pred (check_date start_time nowDate nowMin : Nat) : Prop :=
  check_date < nowDate ∨ (check_date = nowDate ∧ start_time ≤ nowMin)

instance (check_date start_time nowDate nowMin : Nat) :
    Decidable (spec_past_pred check_date start_time nowDate nowMin) := by
  unfold spec_past_pred; infer_instance

deriving instance DecidableEq for Except

/-- A small configuration (working hours 09:00-10:00) used to
instantiate hypotheses of the enumeration theorems on concrete data. -/
def tinyCfg : SlotConfig :=
  { slot_start_time := 540, slot_end_time := 600,
    lunch_start_time := 720, lunch_end_time := 780, duration := 30 }

/-- C1 counterexample: at start 12:07 with duration 30 on a current
date, both the lunch-overlap condition and the 15-minute-grid condition
are violated, yet `is_valid_time` reports only the lunch reason — it
short-circuits instead of accumulating every failing reason. -/
theorem C1_counterexample :
    is_valid_time defaultCfg 0 727 30 0 = (false, "Slot overlaps with lunch break") ∧
    ¬ (727 + 30 ≤ defaultCfg.lunch_start_time ∨ defaultCfg.lunch_end_time ≤ 727) ∧
    (727 - defaultCfg.slot_start_time) % 15 ≠ 0 := by decide

/-- C1 (amended): the boolean verdict of `is_valid_time` is the
conjunction of all six checks, but the function returns a single reason
string — that of the first failing check in the fixed order past date,
duration, start within hours, end within hours, lunch overlap, grid
alignment — never a list of every violated check. -/
theorem C1_valid_iff (cfg : SlotConfig) (today start_time duration check_date : Nat) :
    (is_valid_time cfg today start_time duration check_date).1 = true ↔
      (today ≤ check_date ∧ duration ∈ DURATIONS ∧
       cfg.slot_start_time ≤ start_time ∧ start_time < cfg.slot_end_time ∧
       start_time + duration ≤ cfg.slot_end_time ∧
       (start_time + duration ≤ cfg.lunch_start_time ∨
         cfg.lunch_end_time ≤ start_time) ∧
       (start_time - cfg.slot_start_time) % 15 = 0) := by
  unfold is_valid_time
  split_ifs with h1 h2 h3 h4 h5 h6 <;> simp_all
  omega

/-- C2: soundness of enumeration — every slot record produced by
`Slot.get_available_slots` has a start time passing `is_valid_time` for
the requested duration, and its half-open window overlaps none of the
supplied busy intervals. -/
theorem C2_sound (cfg : SlotConfig) (today : Nat) (busy : List (Nat × Nat))
    (duration check_date : Nat) (slots : List SlotInfo) (s : SlotInfo)
    (hres : Slot.get_available_slots cfg today busy duration check_date = Except.ok slots)
    (hmem : s ∈ slots) :
    (is_valid_time cfg today s.start_time duration check_date).1 = true ∧
    ∀ b ∈ busy, ¬ (s.start_time < b.2 ∧ b.1 < s.start_time + duration) := by
  unfold Slot.get_available_slots at hres
  split_ifs at hres with hdur
  · injection hres with hslots
    subst hslots
    rcases List.mem_map.mp hmem with ⟨t, ht, hs⟩
    rcases List.mem_filter.mp ht with ⟨-, hcond⟩
    rw [Bool.and_eq_true] at hcond
    rcases hcond with ⟨hvalid, havail⟩
    have hst : s.start_time = t := by rw [← hs]
    subst hst
    refine ⟨hvalid, ?_⟩
    intro b hb hover
    have := List.all_eq_true.mp havail b hb
    simp only [overlaps_busy, Bool.not_eq_true'] at this
    exact absurd hover (by simpa using this)

/-- C2 witness: on the 09:00-10:00 configuration with one busy interval
10:00-10:30, the first returned slot (start 09:00) is valid and clear of
the busy interval. -/
theorem C2_sound_witness :
    (is_valid_time tinyCfg 0
        (SlotInfo.mk 0 540 570 30).start_time 30 0).1 = true ∧
    ∀ b ∈ ([(600, 630)] : List (Nat × Nat)),
      ¬ ((SlotInfo.mk 0 540 570 30).start_time < b.2 ∧
         b.1 < (SlotInfo.mk 0 540 570 30).start_time + 30) :=
  C2_sound tinyCfg 0 [(600, 630)] 30 0
    [⟨0, 540, 570, 30⟩, ⟨0, 555, 585, 30⟩, ⟨0, 570, 600, 30⟩]
    ⟨0, 540, 570, 30⟩ (by decide) (by decide)

/-- C3: on any date that is not a working day (weekend or holiday),
`Date.get_available_slots` returns the empty list successfully, for
every busy-interval list, duration and current date. -/
theorem C3_nonworking_empty (cfg : SlotConfig) (holidays : Finset Nat) (today : Nat)
    (busy : List (Nat × Nat)) (duration check_date : Nat)
    (h : is_working_day holidays check_date = false) :
    Date.get_available_slots cfg holidays today busy duration check_date =
      Except.ok [] := by
  unfold Date.get_available_slots
  simp [h]

/-- C3 witness: day 5 (a Saturday) with no holidays is not a working
day, and enumeration on it returns the empty list. -/
theorem C3_nonworking_empty_witness :
    Date.get_available_slots defaultCfg ∅ 0 [(540, 600)] 30 5 = Except.ok [] :=
  C3_nonworking_empty defaultCfg ∅ 0 [(540, 600)] 30 5 (by decide)

/-- C4 counterexample: start 11:00 with duration 70 satisfies the
half-open lunch-overlap condition (11:00 < 13:00 and 12:10 > 12:00),
yet `is_valid_time` does not reject it with the lunch reason — it
short-circuits earlier on the invalid duration.  The claim's
unconditional iff over all start times and durations fails. -/
theorem C4_counterexample :
    (660 < defaultCfg.lunch_end_time ∧ defaultCfg.lunch_start_time < 660 + 70) ∧
    is_valid_time defaultCfg 0 660 70 0 ≠
      (false, "Slot overlaps with lunch break") := by decide

/-- C4 (amended): when the earlier checks pass — the date is not past,
the duration is permitted, and the slot lies within working hours —
`is_valid_time` rejects with the lunch reason iff `start < lunchEnd`
and `start + duration > lunchStart` (half-open overlap); so a slot
starting exactly at `lunchStart` is rejected and one ending exactly at
`lunchStart` is not. -/
theorem C4_lunch_iff (cfg : SlotConfig) (today start_time duration check_date : Nat)
    (h1 : today ≤ check_date) (h2 : duration ∈ DURATIONS)
    (h3 : cfg.slot_start_time ≤ start_time) (h4 : start_time < cfg.slot_end_time)
    (h5 : start_time + duration ≤ cfg.slot_end_time) :
    (is_valid_time cfg today start_time duration check_date =
        (false, "Slot overlaps with lunch break")) ↔
      (start_time < cfg.lunch_end_time ∧
        cfg.lunch_start_time < start_time + duration) := by
  unfold is_valid_time
  split_ifs with g1 g2 g3 g4 g5 <;> simp_all <;> omega

/-- C4 witness: a slot starting exactly at lunch start (12:00, duration
30) is rejected with the lunch reason. -/
theorem C4_lunch_iff_witness :
    is_valid_time defaultCfg 0 720 30 7 =
      (false, "Slot overlaps with lunch break") :=
  (C4_lunch_iff defaultCfg 0 720 30 7 (by decide) (by decide) (by decide)
    (by decide) (by decide)).mpr (by decide)

/-- The start times enumerated in the C5 scenario: 09:00 to 11:30 and
13:00 to 16:30 at 15-minute steps. -/
def C5_starts : List Nat :=
  [540, 555, 570, 585, 600, 615, 630, 645, 660, 675, 690,
   780, 795, 810, 825, 840, 855, 870, 885, 900, 915, 930, 945, 960, 975, 990]

/-- C5 counterexample: in the stated scenario (defaults 09:00-17:00,
lunch 12:00-13:00, duration 30, 15-minute grid, working day 7, no busy
intervals) the enumeration returns the slots with start times
09:00..11:30 and 13:00..16:30 — which are 26 slots, not 16 as the claim
counts them. -/
theorem C5_counterexample :
    (Date.get_available_slots defaultCfg ∅ 0 [] 30 7).map
        (List.map SlotInfo.start_time) = Except.ok C5_starts ∧
    C5_starts.length = 26 ∧ ¬ C5_starts.length = 16 := by decide

/-- C5 (amended): the scenario returns exactly 26 slots, with start
times 09:00, 09:15, ..., 11:30 and 13:00, ..., 16:30, each recorded
with a 30-minute window, excluding every candidate whose half-open
window intersects 12:00-13:00. -/
theorem C5_enumeration :
    Date.get_available_slots defaultCfg ∅ 0 [] 30 7 =
      Except.ok (C5_starts.map (fun t => ⟨7, t, t + 30, 30⟩)) := by decide

/-- C6 counterexample: with the current date 10 at 15:00 (minute 900),
a slot at 09:00 on date 10 has its datetime before "now", so the claim
says the past reason must be reported; the code compares only the
calendar dates and accepts the slot as valid. -/
theorem C6_counterexample :
    spec_past_pred 10 540 10 900 ∧
    is_valid_time defaultCfg 10 540 30 10 = (true, "Valid slot time") := by decide

/-- C6 (amended): the past check works at date granularity — for every
configuration, start time and duration, `is_valid_time` reports the
past reason iff the proposed date is strictly before the current date;
the time of day plays no part, so a slot later today is never reported
as past, but neither is one earlier today. -/
theorem C6_past_iff (cfg : SlotConfig) (today start_time duration check_date : Nat) :
    (is_valid_time cfg today start_time duration check_date =
        (false, "Cannot book slots in the past")) ↔ check_date < today := by
  unfold is_valid_time
  split_ifs with g1 g2 g3 g4 g5 <;> simp_all

/-- C7 counterexample: two silent coercions.  The constructor replaces
the out-of-range duration 20 by the default 30 without error, and the
call-boundary defaulting of `get_available_slots` replaces the
out-of-range duration 0 by the instance default and enumerates slots
successfully instead of failing. -/
theorem C7_counterexample :
    (20 ∉ DURATIONS ∧ init_duration 20 = DEFAULT_DURATION ∧
      init_duration 20 ≠ 20) ∧
    (0 ∉ DURATIONS ∧
      Slot.get_available_slots_call tinyCfg 0 [] (some 0) 0 =
        Except.ok [⟨0, 540, 570, 30⟩, ⟨0, 555, 585, 30⟩, ⟨0, 570, 600, 30⟩]) := by
  decide

/-- C7 (amended): out-of-range durations are not uniformly rejected.
A nonzero duration outside the permitted set does make
`get_available_slots` fail fast with the specific invalid-duration
message, but a zero duration is silently replaced by the instance
default through the `duration or self.duration` defaulting — the call
behaves exactly like one with the duration omitted — and the
constructor silently coerces any out-of-range duration to the class
default. -/
theorem C7_fail_fast (cfg : SlotConfig) (today : Nat) (busy : List (Nat × Nat))
    (duration check_date : Nat) (h0 : duration ≠ 0) (h : duration ∉ DURATIONS) :
    Slot.get_available_slots_call cfg today busy (some duration) check_date =
      Except.error "Invalid duration. Must be one of [15, 30, 45, 60] minutes" ∧
    Slot.get_available_slots_call cfg today busy (some 0) check_date =
      Slot.get_available_slots_call cfg today busy none check_date ∧
    init_duration duration = DEFAULT_DURATION := by
  refine ⟨?_, ?_, ?_⟩
  · unfold Slot.get_available_slots_call or_default_duration Slot.get_available_slots
    simp [h0, h]
  · unfold Slot.get_available_slots_call or_default_duration
    simp
  · unfold init_duration
    simp [h]

/-- C7 witness: instantiation at the nonzero out-of-range duration 20. -/
theorem C7_fail_fast_witness :
    Slot.get_available_slots_call defaultCfg 0 [] (some 20) 0 =
      Except.error "Invalid duration. Must be one of [15, 30, 45, 60] minutes" ∧
    Slot.get_available_slots_call defaultCfg 0 [] (some 0) 0 =
      Slot.get_available_slots_call defaultCfg 0 [] none 0 ∧
    init_duration 20 = DEFAULT_DURATION :=
  C7_fail_fast defaultCfg 0 [] 20 0 (by decide) (by decide)

/-- C8: `get_next_date_same_slot` never reaches its day walk.  Its
loop body evaluates `self.credentials_path`, an attribute `__init__`
never assigns, so every call with a positive `max_days` raises
AttributeError at the first iteration — for no input does it return a
matching slot or the not-found `None` the claim describes; only the
degenerate bound 0 skips the loop and returns `None`. -/
theorem C8_attribute_crash (cfg : SlotConfig) (holidays : Finset Nat)
    (busyOn : Nat → List (Nat × Nat)) (start_time current_date max_days : Nat) :
    Appointment.get_next_date_same_slot cfg holidays busyOn start_time
        current_date (max_days + 1) =
      Except.error "AttributeError: credentials_path" ∧
    "credentials_path" ∉ slot_instance_attrs ∧
    Appointment.get_next_date_same_slot cfg holidays busyOn start_time
        current_date 0 = Except.ok none := by
  refine ⟨?_, by decide, rfl⟩
  rw [Appointment.get_next_date_same_slot]
  simp [show "credentials_path" ∉ slot_instance_attrs from by decide]

/-- C9: evaluated at the failing input — an instance whose default
duration is 30, asked for 60-minute slots on a free day — every
returned record carries `duration = 30` and `end_time = start + 30`,
inconsistent with the requested 60-minute duration the slots were
validated against. -/
theorem C9_bug_eval :
    (Slot.get_available_slots defaultCfg 0 [] 60 0).map
        (fun l => (! l.isEmpty) &&
          l.all (fun s => s.duration == 30 && s.end_time == s.start_time + 30)) =
      Except.ok true ∧ (60 : Nat) ≠ 30 := by decide

/-- Above any day there is a working day: the first day of the next
full week past both the start and every holiday has weekday Monday and
lies outside the (finite) holiday set. -/
theorem exists_working_day (holidays : Finset Nat) (d : Nat) :
    ∃ m, d < m ∧ is_working_day holidays m = true := by
  refine ⟨7 * (max d (holidays.sup id) / 7) + 7, ?_, ?_⟩
  · have h1 := Nat.div_add_mod (max d (holidays.sup id)) 7
    have h2 : max d (holidays.sup id) % 7 < 7 := Nat.mod_lt _ (by norm_num)
    have h3 : d ≤ max d (holidays.sup id) := Nat.le_max_left _ _
    omega
  · have hnot : 7 * (max d (holidays.sup id) / 7) + 7 ∉ holidays := by
      intro hmem
      have hle : id (7 * (max d (holidays.sup id) / 7) + 7) ≤ holidays.sup id :=
        Finset.le_sup hmem
      have h1 := Nat.div_add_mod (max d (holidays.sup id)) 7
      have h3 : holidays.sup id ≤ max d (holidays.sup id) := Nat.le_max_right _ _
      simp only [id] at hle
      omega
    have hmod : weekday (7 * (max d (holidays.sup id) / 7) + 7) = 0 := by
      unfold weekday
      omega
    unfold is_working_day
    rw [hmod]
    simp [hnot, WEEKEND_DAYS]

/-- If some day within `fuel` steps of `start` is a working day, the
fueled loop of `get_next_working_day` succeeds and returns a working
day at or after `start`. -/
theorem next_working_day_aux_some (holidays : Finset Nat) :
    ∀ fuel start i, i < fuel → is_working_day holidays (start + i) = true →
    ∃ w, Date.next_working_day_aux holidays fuel start = some w ∧
      is_working_day holidays w = true ∧ start ≤ w := by
  intro fuel
  induction fuel with
  | zero =>
    intro start i hi hwork
    omega
  | succ k ih =>
    intro start i hi hwork
    by_cases hs : is_working_day holidays start = true
    · exact ⟨start, by simp [Date.next_working_day_aux, hs], hs, Nat.le_refl _⟩
    · have hi0 : i ≠ 0 := by
        rintro rfl
        exact hs hwork
      have hshift : start + 1 + (i - 1) = start + i := by omega
      rcases ih (start + 1) (i - 1) (by omega) (by rw [hshift]; exact hwork)
        with ⟨w, hw1, hw2, hw3⟩
      exact ⟨w, by simp [Date.next_working_day_aux, hs, hw1], hw2, by omega⟩

/-- C10: `get_next_working_day` terminates from every starting date —
the holiday set is finite and the weekend excludes Monday, so the
day-by-day loop (started at `d + 1`) reaches, with some finite fuel, a
day that is neither a weekend day nor a holiday and returns it. -/
theorem C10_terminates (holidays : Finset Nat) (d : Nat) :
    ∃ fuel w, Date.next_working_day_aux holidays fuel (d + 1) = some w ∧
      is_working_day holidays w = true ∧ d < w := by
  rcases exists_working_day holidays d with ⟨m, hdm, hm⟩
  have hshift : d + 1 + (m - (d + 1)) = m := by omega
  rcases next_working_day_aux_some holidays (m - d) (d + 1) (m - (d + 1))
      (by omega) (by rw [hshift]; exact hm) with ⟨w, hw1, hw2, hw3⟩
  exact ⟨m - d, w, hw1, hw2, by omega⟩
